import Mathlib

/-
Verification development for the agentic structured-extraction module
(src/lib/idp_common_pkg/idp_common/extraction/agentic_idp.py).

The Python module is shallowly embedded here: JSON data handled by the
tools becomes the inductive type JValue, the RFC 6902 patch engine used
through jsonpatch.JsonPatch(...).apply(...) becomes doAdd / doReplace /
doRemove / applyOp / apply_patches_to_data, the two dynamic tools become
extraction_tool and apply_json_patches_tool over an explicit AgentState,
capability detection and the max-tokens clamp become detect_model_max and
effective_max_tokens, the outer network-retry loop becomes retryFrom /
outerRetryLoop, token accounting becomes addUsage over TokenUsage, and the
post-exchange result phase of structured_output_async (validation, the
caller-gated review pass, and the terminal error) becomes finalizePhase.
Schema validation performed by pydantic model construction
(model_class(**data)) is abstracted as a parameter
validate : JValue -> Option JValue returning the normalized dump of the
validated instance, or none when construction raises.
-/

namespace AgenticIdp

/-- JSON-like values: the Python dicts, lists and scalars that flow through
the extraction state and the patch engine. Numbers are modeled as integers;
no claim depends on float arithmetic. Objects are ordered field lists, the
order being fixed by the pydantic field order of the schema. -/
inductive JValue where
  | null
  | bool (b : Bool)
  | num (n : Int)
  | str (s : String)
  | arr (xs : List JValue)
  | obj (fs : List (String × JValue))

mutual

/-- Structural equality on JValue, modeling the Python == / != comparison
used at line 729 (updated_extraction != current_extraction). -/
def jeq : JValue → JValue → Bool
  | .null, .null => true
  | .bool a, .bool b => a == b
  | .num a, .num b => a == b
  | .str a, .str b => a == b
  | .arr xs, .arr ys => jeqList xs ys
  | .obj fs, .obj gs => jeqFields fs gs
  | _, _ => false

/-- Elementwise equality of JSON arrays. -/
def jeqList : List JValue → List JValue → Bool
  | [], [] => true
  | x :: xs, y :: ys => jeq x y && jeqList xs ys
  | _, _ => false

/-- Fieldwise equality of JSON objects. -/
def jeqFields : List (String × JValue) → List (String × JValue) → Bool
  | [], [] => true
  | (k, v) :: fs, (k2, v2) :: gs => k == k2 && jeq v v2 && jeqFields fs gs
  | _, _ => false

end

/-- Equality on optional JSON values (Python None compares equal only to None). -/
def optJeq : Option JValue → Option JValue → Bool
  | none, none => true
  | some a, some b => jeq a b
  | _, _ => false

/-- Python truthiness of a JSON value: None, False, 0, the empty string, the
empty list and the empty dict are falsy. Used by the guards at line 227
(if not current_data) and line 660 (if current_extraction). -/
def jTruthy : JValue → Bool
  | .null => false
  | .bool b => b
  | .num n => n != 0
  | .str s => s != ""
  | .arr xs => !xs.isEmpty
  | .obj fs => !fs.isEmpty

/-- Python truthiness of an optional JSON value (a missing or None state
entry is falsy). -/
def optTruthy : Option JValue → Bool
  | none => false
  | some v => jTruthy v

/- ### Character-list string helpers
Executable replacements for the Python string operations used by the module
(substring membership via the in operator, str.lower, JSON pointer token
splitting). They are written over List Char so that concrete instances
reduce inside the kernel. -/

/-- Bool test that the first list is a prefix of the second. -/
def isPrefixCh : List Char → List Char → Bool
  | [], _ => true
  | _ :: _, [] => false
  | a :: as, b :: bs => a == b && isPrefixCh as bs

/-- Bool test that pat occurs contiguously inside hay: the Python
substring-in-string operator. -/
def containsSeq : List Char → List Char → Bool
  | hay, pat =>
    isPrefixCh pat hay ||
    match hay with
    | [] => false
    | _ :: rest => containsSeq rest pat

/-- Substring membership on String, the Python expression pat in s. -/
def containsSub (s pat : String) : Bool :=
  containsSeq s.data pat.data

/-- ASCII lowercasing of one character, modeling str.lower on the ASCII
model identifiers the module matches against. -/
def lowerChar (c : Char) : Char :=
  if c.isUpper then Char.ofNat (c.toNat + 32) else c

/- ### JSON Pointer and RFC 6902 patch engine
Model of jsonpatch.JsonPatch(patches).apply(existing_data) as called by
apply_patches_to_data (lines 159-179). The apply in the library operates on
a copy and raises on the first failing operation, so it is modeled as a
sequential Option fold: any failing operation yields none and an
incomplete document never escapes. -/

/-- One RFC 6902 patch operation, the shapes the system prompt instructs the
model to send (op add / replace / remove with a path and optional value). -/
inductive PatchOp where
  | add (path : String) (value : JValue)
  | replace (path : String) (value : JValue)
  | remove (path : String)

/-- Split a character list on the slash separator, as jsonpointer does for
the part of the path after the leading slash. -/
def splitOnSlash : List Char → List (List Char)
  | [] => [[]]
  | c :: rest =>
    if c = '/' then [] :: splitOnSlash rest
    else
      match splitOnSlash rest with
      | [] => [[c]]
      | g :: gs => (c :: g) :: gs

/-- RFC 6901 token unescaping: the sequence tilde-1 decodes to a slash and
tilde-0 decodes to a tilde. -/
def unescapeChars : List Char → List Char
  | [] => []
  | '~' :: '1' :: rest => '/' :: unescapeChars rest
  | '~' :: '0' :: rest => '~' :: unescapeChars rest
  | c :: rest => c :: unescapeChars rest

/-- Parse a JSON pointer string into reference tokens: the empty string is
the root pointer, otherwise the pointer must start with a slash; anything
else is invalid and the operation fails. -/
def parsePointer (s : String) : Option (List (List Char)) :=
  match s.data with
  | [] => some []
  | '/' :: rest => some ((splitOnSlash rest).map unescapeChars)
  | _ => none

/-- Decimal digits to a natural number, most significant first. -/
def digitsToNat : Nat → List Char → Nat
  | acc, [] => acc
  | acc, c :: rest => digitsToNat (acc * 10 + (c.toNat - 48)) rest

/-- Parse an array-index token: a run of digits with no leading zero, as the
jsonpointer library accepts. -/
def parseIndex (t : List Char) : Option Nat :=
  match t with
  | [] => none
  | c :: rest =>
    if (c :: rest).all Char.isDigit && (rest.isEmpty || c != '0') then
      some (digitsToNat 0 (c :: rest))
    else none

/-- Object field lookup by key token. -/
def lookupKey : List (String × JValue) → List Char → Option JValue
  | [], _ => none
  | (k, v) :: fs, t => if k.data == t then some v else lookupKey fs t

/-- Object field assignment: overwrite the value when the key exists,
append otherwise (the add operation on objects). -/
def setKey : List (String × JValue) → List Char → JValue → List (String × JValue)
  | [], t, v => [(⟨t⟩, v)]
  | (k, v2) :: fs, t, v =>
    if k.data == t then (k, v) :: fs else (k, v2) :: setKey fs t v

/-- Object field replacement: fails when the key does not exist (the
replace operation requires an existing member). -/
def replaceKey : List (String × JValue) → List Char → JValue → Option (List (String × JValue))
  | [], _, _ => none
  | (k, v2) :: fs, t, v =>
    if k.data == t then some ((k, v) :: fs)
    else (replaceKey fs t v).map ((k, v2) :: ·)

/-- Object field removal: fails when the key does not exist. -/
def removeKey : List (String × JValue) → List Char → Option (List (String × JValue))
  | [], _ => none
  | (k, v2) :: fs, t =>
    if k.data == t then some fs
    else (removeKey fs t).map ((k, v2) :: ·)

/-- Array insertion at an index, valid for indices up to the length. -/
def insertAt : List JValue → Nat → JValue → Option (List JValue)
  | xs, 0, v => some (v :: xs)
  | [], _ + 1, _ => none
  | x :: xs, n + 1, v => (insertAt xs n v).map (x :: ·)

/-- Array element replacement at an existing index. -/
def setAt : List JValue → Nat → JValue → Option (List JValue)
  | [], _, _ => none
  | _ :: xs, 0, v => some (v :: xs)
  | x :: xs, n + 1, v => (setAt xs n v).map (x :: ·)

/-- Array element removal at an existing index. -/
def removeAt : List JValue → Nat → Option (List JValue)
  | [], _ => none
  | _ :: xs, 0 => some xs
  | x :: xs, n + 1 => (removeAt xs n).map (x :: ·)

/-- RFC 6902 add along a token path: at the root it replaces the document,
on an object it sets the member, on an array it inserts at the index or
appends for the dash token; navigation through a missing member, a bad
index or a scalar fails the operation. -/
def doAdd : JValue → List (List Char) → JValue → Option JValue
  | _, [], v => some v
  | .obj fs, [t], v => some (.obj (setKey fs t v))
  | .arr xs, [t], v =>
    if t = ['-'] then some (.arr (xs ++ [v]))
    else (parseIndex t).bind fun i => (insertAt xs i v).map JValue.arr
  | .obj fs, t :: rest, v =>
    (lookupKey fs t).bind fun child =>
      (doAdd child rest v).bind fun c => (replaceKey fs t c).map JValue.obj
  | .arr xs, t :: rest, v =>
    (parseIndex t).bind fun i =>
      (xs.get? i).bind fun child =>
        (doAdd child rest v).bind fun c => (setAt xs i c).map JValue.arr
  | _, _ :: _, _ => none

/-- RFC 6902 replace along a token path: the addressed location must exist. -/
def doReplace : JValue → List (List Char) → JValue → Option JValue
  | _, [], v => some v
  | .obj fs, [t], v => (replaceKey fs t v).map JValue.obj
  | .arr xs, [t], v => (parseIndex t).bind fun i => (setAt xs i v).map JValue.arr
  | .obj fs, t :: rest, v =>
    (lookupKey fs t).bind fun child =>
      (doReplace child rest v).bind fun c => (replaceKey fs t c).map JValue.obj
  | .arr xs, t :: rest, v =>
    (parseIndex t).bind fun i =>
      (xs.get? i).bind fun child =>
        (doReplace child rest v).bind fun c => (setAt xs i c).map JValue.arr
  | _, _ :: _, _ => none

/-- RFC 6902 remove along a token path: the addressed location must exist
and the root cannot be removed. -/
def doRemove : JValue → List (List Char) → Option JValue
  | _, [] => none
  | .obj fs, [t] => (removeKey fs t).map JValue.obj
  | .arr xs, [t] => (parseIndex t).bind fun i => (removeAt xs i).map JValue.arr
  | .obj fs, t :: rest =>
    (lookupKey fs t).bind fun child =>
      (doRemove child rest).bind fun c => (replaceKey fs t c).map JValue.obj
  | .arr xs, t :: rest =>
    (parseIndex t).bind fun i =>
      (xs.get? i).bind fun child =>
        (doRemove child rest).bind fun c => (setAt xs i c).map JValue.arr
  | _, _ :: _ => none

/-- Apply one patch operation to a document; none models the exception the
jsonpatch library raises for an unknown path, a bad index or a type
mismatch. -/
def applyOp (doc : JValue) : PatchOp → Option JValue
  | .add p v => (parsePointer p).bind fun ts => doAdd doc ts v
  | .replace p v => (parsePointer p).bind fun ts => doReplace doc ts v
  | .remove p => (parsePointer p).bind fun ts => doRemove doc ts

/-- Model of apply_patches_to_data (lines 159-179): jsonpatch applies the
ordered operation list to a copy of the document and raises on the first
failure, so the whole application is a sequential fold in Option; an empty
patch list returns the existing data unchanged, matching the early return
at line 173. -/
def apply_patches_to_data (existing_data : JValue) (patches : List PatchOp) : Option JValue :=
  patches.foldlM applyOp existing_data

/- ### Agent state and the two dynamic tools
create_dynamic_extraction_tool_and_patch_tool (lines 182-246) builds the
extraction tool and the patch tool over the shared agent state. Only the
current_extraction entry of that state is read or written by them; the
pydantic validation model_class(**data) followed by model_dump() is the
abstract parameter validate. An exception escaping a tool body is caught by
the agent framework and surfaced as a tool-level error without touching the
state; it is modeled by the raised constructor. -/

/-- The slice of the Strands agent state the extraction tools touch: the
current_extraction entry, None initially (line 511). -/
structure AgentState where
  current_extraction : Option JValue

/-- Outcome of one tool call: a normal return value, a returned error
payload (the patch tool returns a dict with an error key at line 228), or
an exception escaping the tool body. -/
inductive ToolResult where
  | ok (value : JValue)
  | errValue (value : JValue)
  | raised (msg : String)

/-- Model of extraction_tool (lines 197-210): validate the payload against
the schema (model_class(**extraction) raises on failure, leaving the state
untouched), store the validated dump in current_extraction, and return the
success message. -/
def extraction_tool (validate : JValue → Option JValue) (st : AgentState)
    (extraction : JValue) : AgentState × ToolResult :=
  match validate extraction with
  | none => (st, .raised "validation failed")
  | some d =>
    (⟨some d⟩, .ok (.str "Extraction succeeded, the data format is correct"))

/-- Model of apply_json_patches (lines 212-239): read current_extraction;
when it is falsy (None, or an empty dict) return the error payload without
touching the state; otherwise apply the whole ordered patch set, validate
the patched object, and only then commit it to the state. A patch failure
or a validation failure raises out of the tool body, so the stored state is
unchanged on every non-success path. -/
def apply_json_patches_tool (validate : JValue → Option JValue) (st : AgentState)
    (patches : List PatchOp) : AgentState × ToolResult :=
  match st.current_extraction with
  | none => (st, .errValue (.obj [("error", .str "No current extraction to patch")]))
  | some cur =>
    if jTruthy cur then
      match apply_patches_to_data cur patches with
      | none => (st, .raised "patch application failed")
      | some patched =>
        match validate patched with
        | none => (st, .raised "validation failed")
        | some vd =>
          (⟨some vd⟩,
            .ok (.obj [("status", .str "success"),
                       ("patches_applied", .num patches.length)]))
    else (st, .errValue (.obj [("error", .str "No current extraction to patch")]))

/- ### Capability detection and the max-tokens clamp (lines 435-466) -/

/-- The generation-4 Claude family test: the regex
claude-(opus|sonnet|haiku)-4 searched in the lowercased identifier, which
matches exactly when one of the three literal alternatives occurs as a
substring. -/
def claude4Family (l : List Char) : Bool :=
  containsSeq l "claude-opus-4".data ||
  containsSeq l "claude-sonnet-4".data ||
  containsSeq l "claude-haiku-4".data

/-- The Nova family test: any of the four Nova tier names occurs in the
lowercased identifier. -/
def novaFamily (l : List Char) : Bool :=
  containsSeq l "nova-premier".data || containsSeq l "nova-pro".data ||
  containsSeq l "nova-lite".data || containsSeq l "nova-micro".data

/-- The Claude 3 family test: claude-3 occurs in the lowercased identifier. -/
def claude3Family (l : List Char) : Bool :=
  containsSeq l "claude-3".data

/-- Model of the model_max detection (lines 435-448): lowercase the
identifier, then test the four classes most specific first; the fallback is
4096. -/
def detect_model_max (model_id : String) : Int :=
  let l := model_id.data.map lowerChar
  if claude4Family l then 64000
  else if novaFamily l then 10000
  else if claude3Family l then 8192
  else 4096

/-- Model of the max_output_tokens computation (lines 450-466): a supplied
caller value above the detected maximum is capped at the maximum, a value
at or below it passes through, and an absent value yields the maximum. -/
def effective_max_tokens (model_id : String) (max_tokens : Option Int) : Int :=
  let model_max := detect_model_max model_id
  match max_tokens with
  | some t => if t > model_max then model_max else t
  | none => model_max

/- ### Token usage accounting (lines 556-562, 648-651, 720-725) -/

/-- The running token_usage accumulator that starts with five zero counters
at lines 556-562. -/
structure TokenUsage where
  inputTokens : Int
  outputTokens : Int
  totalTokens : Int
  cacheReadInputTokens : Int
  cacheWriteInputTokens : Int
deriving DecidableEq

/-- The all-zero initial accumulator. -/
def zeroUsage : TokenUsage := ⟨0, 0, 0, 0, 0⟩

/-- One accumulated_usage mapping reported by an exchange; each key may be
absent, in which case the accumulation reads it as zero via .get(key, 0). -/
structure ExchangeUsage where
  inputTokens : Option Int
  outputTokens : Option Int
  totalTokens : Option Int
  cacheReadInputTokens : Option Int
  cacheWriteInputTokens : Option Int
deriving DecidableEq

/-- One accumulation step: token_usage[key] += usage.get(key, 0) for each of
the five keys (lines 648-651 and 720-725). -/
def addUsage (t : TokenUsage) (u : ExchangeUsage) : TokenUsage :=
  ⟨t.inputTokens + u.inputTokens.getD 0,
   t.outputTokens + u.outputTokens.getD 0,
   t.totalTokens + u.totalTokens.getD 0,
   t.cacheReadInputTokens + u.cacheReadInputTokens.getD 0,
   t.cacheWriteInputTokens + u.cacheWriteInputTokens.getD 0⟩

/-- Accumulate an optionally present usage report: the guards at lines 649
and 721 skip the addition when the response carries no metrics. -/
def accumOpt (t : TokenUsage) : Option ExchangeUsage → TokenUsage
  | some u => addUsage t u
  | none => t

/-- All five counters of a reported usage read as non-negative. -/
def exchangeNonneg (u : ExchangeUsage) : Prop :=
  0 ≤ u.inputTokens.getD 0 ∧ 0 ≤ u.outputTokens.getD 0 ∧
  0 ≤ u.totalTokens.getD 0 ∧ 0 ≤ u.cacheReadInputTokens.getD 0 ∧
  0 ≤ u.cacheWriteInputTokens.getD 0

/- ### The outer retry loop (lines 581-646)
structured_output_async rebinds max_retries to 3 at line 582 and starts the
backoff delay at 2 seconds. Each iteration awaits the agent invocation; on
success it breaks out of the loop, on a retryable network error before the
last attempt it sleeps the current delay and doubles it, and on any other
error (or a retryable one on the last attempt) it re-raises a ClientError
directly and wraps anything else in a ValueError. The behavior of the
model call at each attempt index is the function parameter behavior. -/

/-- What one awaited agent invocation does: succeed, or raise an exception
with a type name, a message, and whether it is a botocore ClientError. -/
inductive CallOutcome where
  | success
  | failure (errType errMsg : String) (isClientError : Bool)

/-- The retryable-network-error test at lines 596-606: the exception type
name is one of four transport classes, or the message contains the phrase
about a response ending prematurely, or the message mentions a connection. -/
def is_retryable (errType errMsg : String) : Bool :=
  (errType == "ProtocolError" || errType == "ConnectionError" ||
   errType == "ReadTimeoutError" || errType == "IncompleteRead") ||
  containsSub errMsg "Response ended prematurely" ||
  containsSub errMsg "Connection"

/-- The error the loop lets escape: a re-raised ClientError (line 643) or
the ValueError wrapper (line 646). -/
inductive LoopError where
  | clientError (errType errMsg : String)
  | valueError (msg : String)
deriving DecidableEq

/-- Observable trace of the retry loop: the outcome (the index of the
successful attempt, or the escaped error), the number of model calls made,
and the backoff sleeps performed in seconds. -/
structure RetryTrace where
  outcome : Except LoopError Nat
  calls : Nat
  sleeps : List Nat

/-- The loop body from a given attempt index, current delay, and number of
remaining iterations; fuel + 1 remaining iterations means the current
attempt is the last one exactly when fuel is zero, matching
attempt == max_retries - 1 at line 593. -/
def retryFrom (behavior : Nat → CallOutcome) : Nat → Nat → Nat → RetryTrace
  | _, _, 0 => ⟨.error (.valueError "Agent invocation failed: no attempts"), 0, []⟩
  | attempt, delay, fuel + 1 =>
    match behavior attempt with
    | .success => ⟨.ok attempt, 1, []⟩
    | .failure et em ice =>
      if is_retryable et em && fuel != 0 then
        let rest := retryFrom behavior (attempt + 1) (delay * 2) fuel
        ⟨rest.outcome, rest.calls + 1, delay :: rest.sleeps⟩
      else if ice then ⟨.error (.clientError et em), 1, []⟩
      else ⟨.error (.valueError ("Agent invocation failed: " ++ em)), 1, []⟩

/-- The outer retry loop as entered at line 585: attempt indices from 0,
delay 2 seconds, 3 attempts in total. -/
def outerRetryLoop (behavior : Nat → CallOutcome) : RetryTrace :=
  retryFrom behavior 0 2 3

/- ### The post-exchange result phase of structured_output_async
(lines 648-761). Once the retry loop has broken out with a response, the
function accumulates the usage of the exchange, reads current_extraction
from the agent state, and either validates it (raising a ValueError when
validation fails), or - only when the state entry is falsy - optionally
runs the caller-gated review exchange, accumulates its usage, and
re-validates the post-review state when it differs from the pre-review one.
When no validated result exists at the end, the terminal ValueError at
line 761 is raised. The review exchange itself is abstracted by its two
observable effects: the usage it reports and the state it leaves behind. -/

/-- Observable outcome of the result phase: the returned record paired with
the accumulated usage, or the message of the raised error, together with
the number of review exchanges performed. -/
structure FinalizeResult where
  result : Except String (JValue × TokenUsage)
  reviewExchanges : Nat

/-- Model of lines 648-761 of structured_output_async. Parameters:
validate is the pydantic construction data_format(**mapping);
exchangeUsage the usage of the first exchange (none when the response
carries no metrics); cur the current_extraction state entry after the
first exchange; review_agent the caller gate; reviewUsage and postState
the usage and resulting state of the review exchange when it runs. -/
def finalizePhase (validate : JValue → Option JValue)
    (exchangeUsage : Option ExchangeUsage) (cur : Option JValue)
    (review_agent : Bool) (reviewUsage : Option ExchangeUsage)
    (postState : Option JValue) : FinalizeResult :=
  let usage0 := accumOpt zeroUsage exchangeUsage
  if optTruthy cur then
    match cur.bind validate with
    | some r => ⟨.ok (r, usage0), 0⟩
    | none => ⟨.error "Failed to validate extraction against schema", 0⟩
  else if review_agent then
    let usage1 := accumOpt usage0 reviewUsage
    if optJeq postState cur then
      ⟨.error "Failed to generate valid structured output.", 1⟩
    else
      match postState.bind validate with
      | some r => ⟨.ok (r, usage1), 1⟩
      | none => ⟨.error "Failed to generate valid structured output.", 1⟩
  else ⟨.error "Failed to generate valid structured output.", 0⟩

/- ### Concrete sample values used to instantiate the theorems -/

/-- The record of the Persona scenario of the module (age 34, name Jane). -/
def janeRecord : JValue := .obj [("age", .num 34), ("name", .str "Jane")]

/-- The same record after the replace patch on the age field. -/
def janeRecord35 : JValue := .obj [("age", .num 35), ("name", .str "Jane")]

/-- Model-call behavior with transient network failures on the first two
attempts and success afterwards. -/
def twoFailuresThenSuccess : Nat → CallOutcome := fun n =>
  if n < 2 then .failure "ConnectionError" "Connection reset by peer" false
  else .success

/-- Model-call behavior with transient network failures on the first three
attempts and success afterwards. -/
def threeFailuresThenSuccess : Nat → CallOutcome := fun n =>
  if n < 3 then .failure "ConnectionError" "Connection reset by peer" false
  else .success

/-- Model-call behavior that always raises an authorization ClientError. -/
def authFailure : Nat → CallOutcome := fun _ =>
  .failure "ClientError" "An error occurred: AccessDeniedException" true

/- ## Theorems -/

/-- Unfolding lemma for one iteration of the retry loop with at least one
attempt remaining. -/
theorem retryFrom_succ (behavior : Nat → CallOutcome) (attempt delay fuel : Nat) :
    retryFrom behavior attempt delay (fuel + 1) =
      match behavior attempt with
      | .success => ⟨.ok attempt, 1, []⟩
      | .failure et em ice =>
        if is_retryable et em && fuel != 0 then
          let rest := retryFrom behavior (attempt + 1) (delay * 2) fuel
          ⟨rest.outcome, rest.calls + 1, delay :: rest.sleeps⟩
        else if ice then ⟨.error (.clientError et em), 1, []⟩
        else ⟨.error (.valueError ("Agent invocation failed: " ++ em)), 1, []⟩ := rfl

/-- A successful call ends the loop at once. -/
theorem retryFrom_success (behavior : Nat → CallOutcome) (attempt delay fuel : Nat)
    (h : behavior attempt = .success) :
    retryFrom behavior attempt delay (fuel + 1) = ⟨.ok attempt, 1, []⟩ := by
  rw [retryFrom_succ, h]

/-- A retryable failure before the last attempt sleeps the current delay,
doubles it, and continues. -/
theorem retryFrom_retryable (behavior : Nat → CallOutcome)
    (attempt delay fuel : Nat) (et em : String) (ice : Bool)
    (h : behavior attempt = .failure et em ice) (hr : is_retryable et em = true)
    (hf : fuel ≠ 0) :
    retryFrom behavior attempt delay (fuel + 1) =
      ⟨(retryFrom behavior (attempt + 1) (delay * 2) fuel).outcome,
       (retryFrom behavior (attempt + 1) (delay * 2) fuel).calls + 1,
       delay :: (retryFrom behavior (attempt + 1) (delay * 2) fuel).sleeps⟩ := by
  rw [retryFrom_succ, h]
  simp [hr, hf]

/-- A failure that is not retryable, or one on the last attempt, escapes the
loop immediately. -/
theorem retryFrom_stop (behavior : Nat → CallOutcome)
    (attempt delay fuel : Nat) (et em : String) (ice : Bool)
    (h : behavior attempt = .failure et em ice)
    (hcond : (is_retryable et em && fuel != 0) = false) :
    retryFrom behavior attempt delay (fuel + 1) =
      if ice then ⟨.error (.clientError et em), 1, []⟩
      else ⟨.error (.valueError ("Agent invocation failed: " ++ em)), 1, []⟩ := by
  rw [retryFrom_succ, h]
  simp [hcond]

/-- Claim C5: the effective maximum output tokens equals the caller value
when one is supplied at or below the detected model maximum, equals the
model maximum when the caller value exceeds it (clamped down, never
raised), and equals the model maximum when no caller value is supplied. -/
theorem effective_max_tokens_clamp (model_id : String) (t : Int) :
    (t ≤ detect_model_max model_id →
      effective_max_tokens model_id (some t) = t) ∧
    (detect_model_max model_id < t →
      effective_max_tokens model_id (some t) = detect_model_max model_id) ∧
    effective_max_tokens model_id none = detect_model_max model_id := by
  refine ⟨fun h => ?_, fun h => ?_, rfl⟩ <;>
    · simp only [effective_max_tokens]
      split <;> omega

/-- Witness for C5 at a Claude 3 identifier whose maximum is 8192: a value
below passes through, a value above is clamped. -/
theorem effective_max_tokens_clamp_witness :
    (100 : Int) ≤ detect_model_max "anthropic.claude-3-haiku-20240307-v1:0" ∧
    effective_max_tokens "anthropic.claude-3-haiku-20240307-v1:0" (some 100) = 100 ∧
    detect_model_max "anthropic.claude-3-haiku-20240307-v1:0" < 100000 ∧
    effective_max_tokens "anthropic.claude-3-haiku-20240307-v1:0" (some 100000) = 8192 :=
  ⟨by decide, (effective_max_tokens_clamp _ 100).1 (by decide), by decide,
   ((effective_max_tokens_clamp _ 100000).2.1 (by decide)).trans (by decide)⟩

/-- Claim C6: capability detection follows the fixed 4-class precedence,
most specific first: a generation-4 Claude family match yields 64000, a
Nova family match yields 10000, a Claude 3 match yields 8192, and any
unmatched identifier yields 4096; in particular a generation-4 identifier
with no caller-supplied max tokens gets an effective maximum of 64000. -/
theorem model_max_detection_precedence (model_id : String) :
    (claude4Family (model_id.data.map lowerChar) = true →
      detect_model_max model_id = 64000) ∧
    (claude4Family (model_id.data.map lowerChar) = false →
      novaFamily (model_id.data.map lowerChar) = true →
      detect_model_max model_id = 10000) ∧
    (claude4Family (model_id.data.map lowerChar) = false →
      novaFamily (model_id.data.map lowerChar) = false →
      claude3Family (model_id.data.map lowerChar) = true →
      detect_model_max model_id = 8192) ∧
    (claude4Family (model_id.data.map lowerChar) = false →
      novaFamily (model_id.data.map lowerChar) = false →
      claude3Family (model_id.data.map lowerChar) = false →
      detect_model_max model_id = 4096) ∧
    effective_max_tokens "us.anthropic.claude-sonnet-4-20250514-v1:0" none = 64000 := by
  refine ⟨?_, ?_, ?_, ?_, by decide⟩ <;> intros <;> simp [detect_model_max, *]

/-- Witness for C6: one identifier of each class evaluated concretely. -/
theorem model_max_detection_precedence_witness :
    claude4Family ("us.anthropic.claude-sonnet-4-20250514-v1:0".data.map lowerChar) = true ∧
    detect_model_max "us.anthropic.claude-sonnet-4-20250514-v1:0" = 64000 ∧
    detect_model_max "us.amazon.nova-pro-v1:0" = 10000 ∧
    detect_model_max "anthropic.claude-3-haiku-20240307-v1:0" = 8192 ∧
    detect_model_max "meta.llama3-70b-instruct-v1:0" = 4096 :=
  ⟨by decide, (model_max_detection_precedence _).1 (by decide),
   by decide, by decide, by decide⟩

/-- Claim C3 counterexample: with three consecutive transient failures
followed by a success, the loop does not succeed - the attempt budget is 3
in total, so the third transient failure happens on the last attempt and
the wrapped error escapes after 3 calls and backoff sleeps of 2 and 4
seconds; the success never happens. -/
theorem retry_three_failures_then_success_raises :
    outerRetryLoop threeFailuresThenSuccess =
      ⟨.error (.valueError "Agent invocation failed: Connection reset by peer"),
       3, [2, 4]⟩ := rfl

/-- Claim C3 (amended): two consecutive transient failures followed by a
success lead to overall success with backoff sleeps of 2 then 4 seconds,
exactly three calls in total (one final successful one), and no further
call or sleep after the success. -/
theorem retry_two_transient_failures_then_success_succeeds
    (behavior : Nat → CallOutcome) (et0 em0 et1 em1 : String) (b0 b1 : Bool)
    (h0 : behavior 0 = .failure et0 em0 b0) (hr0 : is_retryable et0 em0 = true)
    (h1 : behavior 1 = .failure et1 em1 b1) (hr1 : is_retryable et1 em1 = true)
    (h2 : behavior 2 = .success) :
    outerRetryLoop behavior = ⟨.ok 2, 3, [2, 4]⟩ := by
  have s2 : retryFrom behavior 2 8 1 = ⟨.ok 2, 1, []⟩ :=
    retryFrom_success behavior 2 8 0 h2
  have s1 : retryFrom behavior 1 4 2 = ⟨.ok 2, 2, [4]⟩ := by
    have h := retryFrom_retryable behavior 1 4 1 et1 em1 b1 h1 hr1 (by decide)
    rw [h, s2]
  have s0 : retryFrom behavior 0 2 3 = ⟨.ok 2, 3, [2, 4]⟩ := by
    have h := retryFrom_retryable behavior 0 2 2 et0 em0 b0 h0 hr0 (by decide)
    rw [h, s1]
  exact s0

/-- Witness for the amended C3 at the concrete two-failures behavior. -/
theorem retry_two_transient_failures_then_success_succeeds_witness :
    twoFailuresThenSuccess 0 =
      .failure "ConnectionError" "Connection reset by peer" false ∧
    is_retryable "ConnectionError" "Connection reset by peer" = true ∧
    twoFailuresThenSuccess 2 = .success ∧
    outerRetryLoop twoFailuresThenSuccess = ⟨.ok 2, 3, [2, 4]⟩ :=
  ⟨rfl, by decide, rfl,
   retry_two_transient_failures_then_success_succeeds twoFailuresThenSuccess
     "ConnectionError" "Connection reset by peer"
     "ConnectionError" "Connection reset by peer" false false
     rfl (by decide) rfl (by decide) rfl⟩

/-- Claim C4: a failure whose kind is not in the transient-network set
escapes the loop immediately: one single call, no backoff sleep, the
ClientError re-raised directly and any other exception wrapped in a
ValueError; in particular this holds from the very first attempt of the
outer loop. -/
theorem nonretryable_error_propagates_immediately
    (behavior : Nat → CallOutcome) (et em : String) (ice : Bool)
    (hnr : is_retryable et em = false) :
    (∀ attempt delay fuel, behavior attempt = .failure et em ice →
      retryFrom behavior attempt delay (fuel + 1) =
        ⟨.error (if ice then LoopError.clientError et em
          else LoopError.valueError ("Agent invocation failed: " ++ em)), 1, []⟩) ∧
    (behavior 0 = .failure et em ice →
      outerRetryLoop behavior =
        ⟨.error (if ice then LoopError.clientError et em
          else LoopError.valueError ("Agent invocation failed: " ++ em)), 1, []⟩) := by
  have main : ∀ attempt delay fuel, behavior attempt = .failure et em ice →
      retryFrom behavior attempt delay (fuel + 1) =
        ⟨.error (if ice then LoopError.clientError et em
          else LoopError.valueError ("Agent invocation failed: " ++ em)), 1, []⟩ := by
    intro attempt delay fuel hb
    rw [retryFrom_stop behavior attempt delay fuel et em ice hb (by simp [hnr])]
    cases ice <;> simp
  exact ⟨main, fun hb => main 0 2 2 hb⟩

/-- Witness for C4: an authorization ClientError on the first attempt
escapes after exactly one call and no sleep. -/
theorem nonretryable_error_propagates_immediately_witness :
    is_retryable "ClientError" "An error occurred: AccessDeniedException" = false ∧
    outerRetryLoop authFailure =
      ⟨.error (.clientError "ClientError" "An error occurred: AccessDeniedException"),
       1, []⟩ :=
  ⟨by decide,
   (nonretryable_error_propagates_immediately authFailure
     "ClientError" "An error occurred: AccessDeniedException" true (by decide)).2 rfl⟩

/-- Claim C8: calling the patch tool when no extraction has been stored
returns the no-current-extraction error payload as a tool-level return
value and leaves the state unchanged, for every patch set and schema. -/
theorem apply_patches_without_prior_extraction_errors
    (validate : JValue → Option JValue) (patches : List PatchOp) :
    apply_json_patches_tool validate ⟨none⟩ patches =
      (⟨none⟩, .errValue (.obj [("error", .str "No current extraction to patch")])) := rfl

/-- Claim C10: after a successful set_extraction whose serialized form is
the empty mapping, the patch tool still answers with the
no-current-extraction error and changes nothing, because its guard tests
the truthiness of the stored value (the empty dict is falsy in Python)
rather than its presence. -/
theorem apply_patches_empty_extraction_truthiness_guard
    (validate : JValue → Option JValue) (st0 : AgentState) (patches : List PatchOp)
    (hv : validate (.obj []) = some (.obj [])) :
    extraction_tool validate st0 (.obj []) =
      (⟨some (.obj [])⟩, .ok (.str "Extraction succeeded, the data format is correct")) ∧
    apply_json_patches_tool validate ⟨some (.obj [])⟩ patches =
      (⟨some (.obj [])⟩, .errValue (.obj [("error", .str "No current extraction to patch")])) := by
  constructor
  · simp [extraction_tool, hv]
  · rfl

/-- Witness for C10 with the identity-like validator of a schema with no
fields. -/
theorem apply_patches_empty_extraction_truthiness_guard_witness :
    (fun v => some v : JValue → Option JValue) (.obj []) = some (.obj []) ∧
    extraction_tool (fun v => some v) ⟨none⟩ (.obj []) =
      (⟨some (.obj [])⟩, .ok (.str "Extraction succeeded, the data format is correct")) ∧
    apply_json_patches_tool (fun v => some v) ⟨some (.obj [])⟩
        [PatchOp.add "/x" (.num 1)] =
      (⟨some (.obj [])⟩, .errValue (.obj [("error", .str "No current extraction to patch")])) :=
  ⟨rfl,
   (apply_patches_empty_extraction_truthiness_guard (fun v => some v) ⟨none⟩
     [PatchOp.add "/x" (.num 1)] rfl).1,
   (apply_patches_empty_extraction_truthiness_guard (fun v => some v) ⟨none⟩
     [PatchOp.add "/x" (.num 1)] rfl).2⟩

/-- The patch fold distributes over list concatenation. -/
theorem apply_patches_to_data_append (ps1 ps2 : List PatchOp) :
    ∀ data : JValue, apply_patches_to_data data (ps1 ++ ps2) =
      (apply_patches_to_data data ps1).bind fun m => apply_patches_to_data m ps2 := by
  induction ps1 with
  | nil => intro data; rfl
  | cons p ps ih =>
    intro data
    show (applyOp data p).bind (fun m => apply_patches_to_data m (ps ++ ps2)) =
      ((applyOp data p).bind fun m => apply_patches_to_data m ps).bind
        fun m => apply_patches_to_data m ps2
    cases h : applyOp data p with
    | none => rfl
    | some m => exact ih m

/-- Claim C2: the patch tool is atomic. For every stored (truthy) current
extraction and every patch set: when the patch application fails - in
particular when any single operation of the ordered set fails - the tool
raises and the stored state is identical to the state before the call;
when the patched object fails schema validation the tool raises and the
state is again unchanged; and a successful apply commits the result of the
whole ordered set in one mutation. -/
theorem apply_json_patches_atomicity
    (validate : JValue → Option JValue) (st : AgentState) (cur : JValue)
    (patches : List PatchOp)
    (hcur : st.current_extraction = some cur) (ht : jTruthy cur = true) :
    (apply_patches_to_data cur patches = none →
      apply_json_patches_tool validate st patches = (st, .raised "patch application failed")) ∧
    (∀ ps1 op ps2 mid, patches = ps1 ++ op :: ps2 →
      apply_patches_to_data cur ps1 = some mid → applyOp mid op = none →
      apply_json_patches_tool validate st patches = (st, .raised "patch application failed")) ∧
    (∀ patched, apply_patches_to_data cur patches = some patched →
      validate patched = none →
      apply_json_patches_tool validate st patches = (st, .raised "validation failed")) ∧
    (∀ patched vd, apply_patches_to_data cur patches = some patched →
      validate patched = some vd →
      apply_json_patches_tool validate st patches =
        (⟨some vd⟩, .ok (.obj [("status", .str "success"),
          ("patches_applied", .num patches.length)]))) := by
  obtain ⟨ce⟩ := st
  simp only [AgentState.mk.injEq] at hcur
  subst hcur
  refine ⟨?_, ?_, ?_, ?_⟩
  · intro hnone
    simp [apply_json_patches_tool, ht, hnone]
  · intro ps1 op ps2 mid hps h1 h2
    have hnone : apply_patches_to_data cur patches = none := by
      subst hps
      rw [apply_patches_to_data_append, h1]
      show (applyOp mid op).bind _ = none
      rw [h2]
      rfl
    simp [apply_json_patches_tool, ht, hnone]
  · intro patched hsome hvn
    simp [apply_json_patches_tool, ht, hsome, hvn]
  · intro patched vd hsome hvs
    simp [apply_json_patches_tool, ht, hsome, hvs]

/-- Witness for C2: the replace patch on the Jane record commits, and the
remove patch at an unknown path is rejected with the state unchanged. -/
theorem apply_json_patches_atomicity_witness :
    (AgentState.mk (some janeRecord)).current_extraction = some janeRecord ∧
    jTruthy janeRecord = true ∧
    apply_patches_to_data janeRecord [PatchOp.replace "/age" (.num 35)] = some janeRecord35 ∧
    apply_json_patches_tool (fun v => some v) ⟨some janeRecord⟩
        [PatchOp.replace "/age" (.num 35)] =
      (⟨some janeRecord35⟩, .ok (.obj [("status", .str "success"),
        ("patches_applied", .num 1)])) ∧
    apply_patches_to_data janeRecord [PatchOp.remove "/missing/0"] = none ∧
    apply_json_patches_tool (fun v => some v) ⟨some janeRecord⟩
        [PatchOp.remove "/missing/0"] =
      (⟨some janeRecord⟩, .raised "patch application failed") :=
  ⟨rfl, rfl, rfl,
   (apply_json_patches_atomicity (fun v => some v) ⟨some janeRecord⟩ janeRecord
     [PatchOp.replace "/age" (.num 35)] rfl rfl).2.2.2 janeRecord35 janeRecord35 rfl rfl,
   rfl,
   (apply_json_patches_atomicity (fun v => some v) ⟨some janeRecord⟩ janeRecord
     [PatchOp.remove "/missing/0"] rfl rfl).1 rfl⟩

/-- Per-field value of the accumulator after folding a list of exchange
usages, for an arbitrary starting accumulator. -/
theorem foldl_addUsage_fields (us : List ExchangeUsage) : ∀ t : TokenUsage,
    (us.foldl addUsage t).inputTokens =
      t.inputTokens + (us.map fun u => u.inputTokens.getD 0).sum ∧
    (us.foldl addUsage t).outputTokens =
      t.outputTokens + (us.map fun u => u.outputTokens.getD 0).sum ∧
    (us.foldl addUsage t).totalTokens =
      t.totalTokens + (us.map fun u => u.totalTokens.getD 0).sum ∧
    (us.foldl addUsage t).cacheReadInputTokens =
      t.cacheReadInputTokens + (us.map fun u => u.cacheReadInputTokens.getD 0).sum ∧
    (us.foldl addUsage t).cacheWriteInputTokens =
      t.cacheWriteInputTokens + (us.map fun u => u.cacheWriteInputTokens.getD 0).sum := by
  induction us with
  | nil => intro t; simp
  | cons u us ih =>
    intro t
    obtain ⟨i1, i2, i3, i4, i5⟩ := ih (addUsage t u)
    simp only [List.foldl_cons, List.map_cons, List.sum_cons]
    refine ⟨?_, ?_, ?_, ?_, ?_⟩
    · rw [i1]; simp only [addUsage]; omega
    · rw [i2]; simp only [addUsage]; omega
    · rw [i3]; simp only [addUsage]; omega
    · rw [i4]; simp only [addUsage]; omega
    · rw [i5]; simp only [addUsage]; omega

/-- Claim C9: each of the five counters starts at zero and after folding N
exchange usages equals the sum of the per-exchange values (absent keys read
as zero), and no accumulation step with non-negative reported values ever
decreases any counter. -/
theorem token_usage_accumulator_monotone_sum (us : List ExchangeUsage) :
    ((us.foldl addUsage zeroUsage).inputTokens =
       (us.map fun u => u.inputTokens.getD 0).sum ∧
     (us.foldl addUsage zeroUsage).outputTokens =
       (us.map fun u => u.outputTokens.getD 0).sum ∧
     (us.foldl addUsage zeroUsage).totalTokens =
       (us.map fun u => u.totalTokens.getD 0).sum ∧
     (us.foldl addUsage zeroUsage).cacheReadInputTokens =
       (us.map fun u => u.cacheReadInputTokens.getD 0).sum ∧
     (us.foldl addUsage zeroUsage).cacheWriteInputTokens =
       (us.map fun u => u.cacheWriteInputTokens.getD 0).sum) ∧
    (∀ (t : TokenUsage) (u : ExchangeUsage), exchangeNonneg u →
      t.inputTokens ≤ (addUsage t u).inputTokens ∧
      t.outputTokens ≤ (addUsage t u).outputTokens ∧
      t.totalTokens ≤ (addUsage t u).totalTokens ∧
      t.cacheReadInputTokens ≤ (addUsage t u).cacheReadInputTokens ∧
      t.cacheWriteInputTokens ≤ (addUsage t u).cacheWriteInputTokens) := by
  constructor
  · obtain ⟨i1, i2, i3, i4, i5⟩ := foldl_addUsage_fields us zeroUsage
    refine ⟨?_, ?_, ?_, ?_, ?_⟩
    · rw [i1]; simp [zeroUsage]
    · rw [i2]; simp [zeroUsage]
    · rw [i3]; simp [zeroUsage]
    · rw [i4]; simp [zeroUsage]
    · rw [i5]; simp [zeroUsage]
  · intro t u hn
    obtain ⟨h1, h2, h3, h4, h5⟩ := hn
    simp only [addUsage]
    refine ⟨?_, ?_, ?_, ?_, ?_⟩ <;> omega

/-- Witness for C9 at a concrete two-exchange usage list. -/
theorem token_usage_accumulator_monotone_sum_witness :
    exchangeNonneg ⟨some 3, some 5, some 8, none, some 0⟩ ∧
    ([ExchangeUsage.mk (some 3) (some 5) (some 8) none (some 0),
      ExchangeUsage.mk (some 1) (some 1) (some 2) (some 7) none].foldl
        addUsage zeroUsage).totalTokens = 10 ∧
    zeroUsage.inputTokens ≤
      (addUsage zeroUsage ⟨some 3, some 5, some 8, none, some 0⟩).inputTokens :=
  ⟨by exact ⟨by decide, by decide, by decide, by decide, by decide⟩,
   by
    have h := (token_usage_accumulator_monotone_sum
      [ExchangeUsage.mk (some 3) (some 5) (some 8) none (some 0),
       ExchangeUsage.mk (some 1) (some 1) (some 2) (some 7) none]).1.2.2.1
    rw [h]; decide,
   ((token_usage_accumulator_monotone_sum []).2 zeroUsage
     ⟨some 3, some 5, some 8, none, some 0⟩
     ⟨by decide, by decide, by decide, by decide, by decide⟩).1⟩

/-- Claim C1: the result phase of an invocation either returns a record
produced by a successful schema validation together with the accumulated
usage, or raises a typed error; never an incomplete or schema-invalid record.
In particular, when every validation that takes place during the exchange
outcome and the optional review fails, a terminal error is raised. -/
theorem structured_output_returns_validated_or_error
    (validate : JValue → Option JValue) (eu : Option ExchangeUsage)
    (cur : Option JValue) (ra : Bool) (ru : Option ExchangeUsage)
    (ps : Option JValue) :
    (∀ r u, (finalizePhase validate eu cur ra ru ps).result = .ok (r, u) →
      ∃ x, validate x = some r) ∧
    ((optTruthy cur = true → cur.bind validate = none) → ps.bind validate = none →
      ∃ e, (finalizePhase validate eu cur ra ru ps).result = .error e) := by
  constructor
  · intro r u h
    unfold finalizePhase at h
    by_cases hc : optTruthy cur = true
    · simp only [hc, if_true] at h
      cases hv : cur.bind validate with
      | none => simp [hv] at h
      | some r2 =>
        simp only [hv] at h
        simp at h
        obtain ⟨x, hx1, hx2⟩ := Option.bind_eq_some.mp hv
        exact ⟨x, by rw [hx2, h.1]⟩
    · simp only [hc, if_false] at h
      cases ra with
      | false => simp at h
      | true =>
        simp only [if_true] at h
        cases hjeq : optJeq ps cur with
        | true => simp [hjeq] at h
        | false =>
          simp only [hjeq] at h
          cases hv : ps.bind validate with
          | none => simp [hv] at h
          | some r2 =>
            simp only [hv] at h
            simp at h
            obtain ⟨x, hx1, hx2⟩ := Option.bind_eq_some.mp hv
            exact ⟨x, by rw [hx2, h.1]⟩
  · intro hcur hps
    unfold finalizePhase
    by_cases hc : optTruthy cur = true
    · simp [hc, hcur hc]
    · simp only [hc, if_false]
      cases ra with
      | false => simp
      | true =>
        simp only [if_true]
        cases hjeq : optJeq ps cur with
        | true => simp [hjeq]
        | false => simp [hjeq, hps]

/-- Witness for C1: when validation always fails and the review leaves the
state unchanged, the terminal error is raised. -/
theorem structured_output_returns_validated_or_error_witness :
    (optTruthy (some janeRecord) = true →
      (some janeRecord).bind (fun _ => (none : Option JValue)) = none) ∧
    (none : Option JValue).bind (fun _ => (none : Option JValue)) = none ∧
    ∃ e, (finalizePhase (fun _ => none) none (some janeRecord) true none none).result =
      .error e :=
  ⟨fun _ => rfl, rfl,
   (structured_output_returns_validated_or_error (fun _ => none) none
     (some janeRecord) true none none).2 (fun _ => rfl) rfl⟩

/-- Claim C7 counterexample: with the review pass requested and a truthy,
valid extraction already stored after the first exchange, no review
exchange runs (the review block sits in the branch where no extraction was
found), so review does not run whenever the caller requests it. -/
theorem review_skipped_when_extraction_present :
    (finalizePhase (fun v => some v) none (some janeRecord) true none none).result =
      .ok (janeRecord, zeroUsage) ∧
    ¬ ((finalizePhase (fun v => some v) none (some janeRecord) true none
        none).reviewExchanges = 1) :=
  ⟨rfl, by decide⟩

/-- Claim C7 (amended): the review exchange runs only when the caller
requests it and the first exchange left no truthy extraction; its usage is
added to the running total; when the post-review state differs from the
pre-review one it is re-validated and becomes the result on success, and
on every other path no result was ever produced and the terminal error is
raised. -/
theorem review_runs_when_no_truthy_extraction
    (validate : JValue → Option JValue) (eu ru : Option ExchangeUsage)
    (cur ps : Option JValue) (h : optTruthy cur = false) :
    (finalizePhase validate eu cur true ru ps).reviewExchanges = 1 ∧
    (∀ r u, (finalizePhase validate eu cur true ru ps).result = .ok (r, u) →
      u = accumOpt (accumOpt zeroUsage eu) ru ∧ ps.bind validate = some r ∧
      optJeq ps cur = false) ∧
    (optJeq ps cur = false → ps.bind validate = none →
      (finalizePhase validate eu cur true ru ps).result =
        .error "Failed to generate valid structured output.") ∧
    (optJeq ps cur = true →
      (finalizePhase validate eu cur true ru ps).result =
        .error "Failed to generate valid structured output.") ∧
    (finalizePhase validate eu cur false ru ps).reviewExchanges = 0 := by
  have hc : ¬ (optTruthy cur = true) := by simp [h]
  refine ⟨?_, ?_, ?_, ?_, ?_⟩
  · unfold finalizePhase
    simp only [hc, if_false, if_true]
    cases hjeq : optJeq ps cur with
    | true => rfl
    | false => cases ps.bind validate <;> rfl
  · intro r u hr
    unfold finalizePhase at hr
    simp only [hc, if_false, if_true] at hr
    cases hjeq : optJeq ps cur with
    | true => simp [hjeq] at hr
    | false =>
      simp only [hjeq] at hr
      cases hv : ps.bind validate with
      | none => simp [hv] at hr
      | some r2 =>
        simp only [hv] at hr
        simp at hr
        exact ⟨hr.2.symm, by rw [hr.1], rfl⟩
  · intro hjeq hv
    unfold finalizePhase
    simp [hc, hjeq, hv]
  · intro hjeq
    unfold finalizePhase
    simp [hc, hjeq]
  · unfold finalizePhase
    simp [hc]

/-- Witness for the amended C7: no extraction after the first exchange, a
review that stores the Jane record, identity validation: the review runs,
the record is returned, and the usages of both exchanges are summed. -/
theorem review_runs_when_no_truthy_extraction_witness :
    optTruthy none = false ∧
    (finalizePhase (fun v => some v)
      (some ⟨some 1, some 2, some 3, none, none⟩) none true
      (some ⟨some 4, some 5, some 9, none, none⟩) (some janeRecord)).reviewExchanges = 1 :=
  ⟨rfl,
   (review_runs_when_no_truthy_extraction (fun v => some v)
     (some ⟨some 1, some 2, some 3, none, none⟩)
     (some ⟨some 4, some 5, some 9, none, none⟩) none (some janeRecord) rfl).1⟩

end AgenticIdp
